import Mathlib

/-!
Shallow embedding of the RAG core of the LangChainLearning repository
(`src/Rag/...`): the similarity utilities (`utils/similarity.py`), the
vector store manager (`core/vector_store.py`), the document loader
(`core/document_loader.py`), the DeepSeek LLM client (`llm/deepseek_llm.py`,
`llm/base_llm.py`) and the RAG orchestrator (`core/rag_system.py`).

Numeric conventions: Python floats are modelled as exact rationals (`ℚ`)
wherever the source only adds, subtracts, multiplies and divides; values
produced through `numpy` square roots (`np.linalg.norm`) live in `ℝ`.
Fallible operations (numpy shape errors, `raise ValueError`) are modelled
with `Option`/`Except`.  External collaborators (the Chroma vector
database, the sentence-transformers embedding model, the DeepSeek chat
API, the filesystem, the wall clock) are modelled as explicit function
parameters or simple state records, as the spec treats them as opaque
interfaces; wall-clock durations are fixed at 0 since real time is not
modelled.
-/

namespace Rag

/-! ## utils/similarity.py -/

/-- numpy 1-D dot product (`np.dot(a, b)`): defined only when the lengths
agree, otherwise numpy raises a shape mismatch `ValueError`, modelled as
`none`. -/
def npDot (a b : List ℚ) : Option ℚ :=
  if a.length = b.length then some ((List.zipWith (· * ·) a b).sum) else none

/-- numpy elementwise subtraction `a - b` on 1-D arrays, including the
broadcasting rule: shapes `(n,)` and `(m,)` are compatible iff `n = m` or
one of them is `1`; an incompatible pair raises, modelled as `none`. -/
def npSub (a b : List ℚ) : Option (List ℚ) :=
  if a.length = b.length then some (List.zipWith (· - ·) a b)
  else if a.length = 1 then some (b.map (fun x => a.headD 0 - x))
  else if b.length = 1 then some (a.map (fun x => x - b.headD 0))
  else none

/-- Sum of squares of the entries of a vector. -/
def sumSq (a : List ℚ) : ℚ := (a.map (fun x => x * x)).sum

/-- numpy Euclidean norm `np.linalg.norm(a)` of a 1-D array: the square
root of the sum of squares, a real number. -/
noncomputable def npNorm (a : List ℚ) : ℝ := Real.sqrt ((sumSq a : ℚ) : ℝ)

/-- The value `np.dot(a,b) / (norm(a) * norm(b))` computed by
`SimilarityCalculator.cosine_similarity` when the shapes agree. -/
noncomputable def cosVal (a b : List ℚ) : ℝ :=
  (((List.zipWith (· * ·) a b).sum : ℚ) : ℝ) / (npNorm a * npNorm b)

/-- `SimilarityCalculator.cosine_similarity(a, b)`:
`np.dot(a, b) / (np.linalg.norm(a) * np.linalg.norm(b))`.  The `np.dot`
call raises on a length mismatch (`none`); otherwise the quotient is
returned (real division, with `x / 0 = 0` standing in for the float
division-by-zero corner). -/
noncomputable def cosine_similarity (a b : List ℚ) : Option ℝ :=
  (npDot a b).map (fun d => ((d : ℚ) : ℝ) / (npNorm a * npNorm b))

/-- `SimilarityCalculator.euclidean_distance(a, b)`:
`np.linalg.norm(a - b)`; the subtraction follows numpy broadcasting. -/
noncomputable def euclidean_distance (a b : List ℚ) : Option ℝ :=
  (npSub a b).map (fun d => npNorm d)

/-- `SimilarityCalculator.manhattan_distance(a, b)`:
`np.sum(np.abs(a - b))`; the subtraction follows numpy broadcasting. -/
def manhattan_distance (a b : List ℚ) : Option ℚ :=
  (npSub a b).map (fun d => (d.map (fun x => |x|)).sum)

/-- `SimilarityCalculator.dot_product(a, b)`: `np.dot(a, b)`. -/
def dot_product (a b : List ℚ) : Option ℚ := npDot a b

/-- `SimilarityCalculator.similarity_matrix(embeddings)`: an `n × n`
matrix whose diagonal entries are assigned the literal `1.0` and whose
off-diagonal entries are `cosine_similarity(embeddings[i], embeddings[j])`.
If any computed entry raises (length mismatch inside `np.dot`), the whole
Python call raises: modelled by sequencing the entries through `Option`. -/
noncomputable def similarity_matrix (embeddings : List (List ℚ)) :
    Option (List (List ℝ)) :=
  (List.range embeddings.length).mapM (fun i =>
    (List.range embeddings.length).mapM (fun j =>
      if i = j then some 1
      else cosine_similarity (embeddings.getD i []) (embeddings.getD j [])))

/-- Python list slicing `l[:k]` for an arbitrary integer `k`: for
`k ≥ 0` it takes the first `k` elements (clamped to the length), for
`k < 0` it takes the first `len(l) + k` elements (clamped to `0`). -/
def pyTake {α : Type} (k : ℤ) (l : List α) : List α :=
  l.take (if 0 ≤ k then k.toNat else ((l.length : ℤ) + k).toNat)

/-- `SimilarityCalculator.find_most_similar(query_embedding,
document_embeddings, top_k)`: pairs every index with its cosine
similarity to the query (raising if any dimension mismatches), sorts the
pairs by descending similarity with Python's stable sort
(`reverse=True`), and returns the slice `similarities[:top_k]`. -/
noncomputable def find_most_similar (query_embedding : List ℚ)
    (document_embeddings : List (List ℚ)) (top_k : ℤ) :
    Option (List (ℕ × ℝ)) :=
  (document_embeddings.enum.mapM
      (fun p => (cosine_similarity query_embedding p.2).map (fun s => (p.1, s)))).map
    (fun sims => pyTake top_k (sims.mergeSort (fun x y => decide (y.2 ≤ x.2))))

/-! ## Data model (langchain `Document`, external Chroma store, filesystem) -/

/-- A langchain `Document`: text content plus a string-keyed metadata
mapping (modelled as an association list). -/
structure Document where
  page_content : String
  metadata : List (String × String)
deriving Repr, DecidableEq

/-- The external Chroma collection persisted under a directory: the
ingested `(document, embedding vector)` pairs.  Its search behaviour is
opaque to this repository and is passed separately where needed. -/
structure ChromaStore where
  persist_directory : String
  entries : List (Document × List ℚ)
deriving Repr, DecidableEq

/-- `Chroma.from_documents(documents, embedding, persist_directory)`:
builds the collection by embedding each document content (per spec §4.3,
the store holds the `(content, vector, metadata)` triples). -/
def Chroma.from_documents (documents : List Document)
    (embedding : String → List ℚ) (persist_directory : String) : ChromaStore :=
  ⟨persist_directory, documents.map (fun d => (d, embedding d.page_content))⟩

/-- External `delete_all` call on a Chroma collection: empties the stored
vectors, leaving the handle and its directory binding intact. -/
def ChromaStore.delete_all (s : ChromaStore) : ChromaStore :=
  { s with entries := [] }

/-- The durable world: the set of directories existing on disk, the only
shared resource of the RAG core (spec §5). -/
structure World where
  dirs : List String
deriving Repr, DecidableEq

/-- A filesystem view for the document loader: maps a directory path to
`none` when `os.path.exists` is false, and otherwise to the documents the
external `DirectoryLoader(..., glob="**/*.txt").load()` call produces
(per-file read errors already skipped by that loader). -/
def FileSystem : Type := String → Option (List Document)

/-! ## core/vector_store.py — VectorStoreManager -/

/-- `VectorStoreManager` state: the persistence directory and the current
vector store handle (`None` until a create/load succeeds). -/
structure VectorStoreManager where
  persist_directory : String
  vector_store : Option ChromaStore
deriving Repr, DecidableEq

/-- Default directory of `VectorStoreManager.__init__`. -/
def VectorStoreManager.defaultDirectory : String := "./test_sentence_transformers_store"

/-- `VectorStoreManager(persist_directory)`: fresh manager, no store. -/
def VectorStoreManager.init (persist_directory : String) : VectorStoreManager :=
  ⟨persist_directory, none⟩

/-- Python string `lower()` restricted to the characters that matter for
the comparison against the ASCII literal constants used by the source:
maps every character of the string to its lowercase form. -/
def pyLower (s : String) : String := ⟨s.data.map Char.toLower⟩

/-- `VectorStoreManager.create_vector_store(documents, embeddings,
persist_directory, vector_store_type)`: optionally rebinds the directory
(Python truthiness: an empty string does not rebind), then builds a
Chroma store from the documents — the `else` branch for an unsupported
`vector_store_type` prints a warning and performs the identical
`Chroma.from_documents` call.  Returns the updated world (the persisted
directory now exists), the updated manager and the store. -/
def VectorStoreManager.create_vector_store (w : World) (m : VectorStoreManager)
    (documents : List Document) (embeddings : String → List ℚ)
    (persist_directory : Option String) (vector_store_type : String) :
    World × VectorStoreManager × ChromaStore :=
  let m1 := match persist_directory with
    | some pd => if pd = "" then m else { m with persist_directory := pd }
    | none => m
  let store :=
    if pyLower vector_store_type = "chroma" then
      Chroma.from_documents documents embeddings m1.persist_directory
    else
      Chroma.from_documents documents embeddings m1.persist_directory
  (⟨w.dirs.insert m1.persist_directory⟩,
   { m1 with vector_store := some store }, store)

/-- `VectorStoreManager.similarity_search(query, k)`: raises
`ValueError("向量存储未初始化，请先创建或加载向量存储")` when no store has been
created or loaded; otherwise delegates to the external store's
`similarity_search`, whose behaviour is the parameter `ext`. -/
def VectorStoreManager.similarity_search
    (ext : ChromaStore → String → ℕ → List Document)
    (m : VectorStoreManager) (query : String) (k : ℕ) :
    Except String (List Document) :=
  match m.vector_store with
  | none => .error "向量存储未初始化，请先创建或加载向量存储"
  | some s => .ok (ext s query k)

/-- `VectorStoreManager.search_with_scores(query, k)`: raises
`ValueError("向量存储未初始化")` when no store has been created or loaded;
otherwise delegates to the external store's
`similarity_search_with_score`, whose behaviour is the parameter `ext`. -/
def VectorStoreManager.search_with_scores
    (ext : ChromaStore → String → ℕ → List (Document × ℚ))
    (m : VectorStoreManager) (query : String) (k : ℕ) :
    Except String (List (Document × ℚ)) :=
  match m.vector_store with
  | none => .error "向量存储未初始化"
  | some s => .ok (ext s query k)

/-- `VectorStoreManager.clear_store()`: when a store handle exists, calls
its external `delete_all` (emptying the stored vectors); the handle and
the on-disk directory are untouched. -/
def VectorStoreManager.clear_store (w : World) (m : VectorStoreManager) :
    World × VectorStoreManager :=
  (w, { m with vector_store := m.vector_store.map ChromaStore.delete_all })

/-- `VectorStoreManager.delete_store()`: removes the persisted directory
from disk (`shutil.rmtree` when it exists) and sets the handle to
`None`. -/
def VectorStoreManager.delete_store (w : World) (m : VectorStoreManager) :
    World × VectorStoreManager :=
  (⟨w.dirs.filter (fun d => d ≠ m.persist_directory)⟩,
   { m with vector_store := none })

/-! ## core/document_loader.py — DocumentLoader -/

/-- `DocumentLoader` state: the default data directory. -/
structure DocumentLoader where
  data_directory : String
deriving Repr, DecidableEq

/-- `DocumentLoader()` default constructor. -/
def DocumentLoader.init : DocumentLoader := ⟨"./data/sample_documents"⟩

/-- `DocumentLoader.load_text_documents(directory, ...)`: uses the
default data directory when none is given; returns `[]` (not an error)
when the directory does not exist; otherwise returns whatever the
external `DirectoryLoader` produced. -/
def DocumentLoader.load_text_documents (fs : FileSystem)
    (loader : DocumentLoader) (directory : Option String) : List Document :=
  let dir := directory.getD loader.data_directory
  match fs dir with
  | none => []
  | some docs => docs

/-- `DocumentLoader.create_test_documents()`: the fixed list of 5
synthetic example documents. -/
def DocumentLoader.create_test_documents : List Document :=
  [⟨"RAG（Retrieval-Augmented Generation）是一种结合信息检索和文本生成的AI技术。",
    [("source", "test1.txt")]⟩,
   ⟨"RAG系统可以从知识库中检索相关信息，然后基于这些信息生成答案。",
    [("source", "test2.txt")]⟩,
   ⟨"Sentence-Transformers是一个优秀的Python库，用于生成高质量的文本嵌入向量。",
    [("source", "test3.txt")]⟩,
   ⟨"向量数据库是RAG系统的重要组成部分，用于存储和检索文档的嵌入向量。",
    [("source", "test4.txt")]⟩,
   ⟨"本地嵌入模型可以在不依赖外部API的情况下生成文本向量，保护数据隐私。",
    [("source", "test5.txt")]⟩]

/-! ## llm/deepseek_llm.py and llm/base_llm.py — DeepSeekLLM -/

/-- One chat message (`{"role": ..., "content": ...}`). -/
structure ChatMessage where
  role : String
  content : String
deriving Repr, DecidableEq

/-- Outcome of the external `client.chat.completions.create` network
call: either the generated content or a raised exception rendered as its
message string. -/
inductive NetResult where
  | ok (content : String)
  | err (msg : String)
deriving Repr, DecidableEq

/-- `DeepSeekLLM` state: the model name plus the opaque behaviour of the
remote chat-completion API (arguments: messages, max_tokens,
temperature). -/
structure DeepSeekLLM where
  model_name : String
  net : List ChatMessage → ℕ → ℚ → NetResult

/-- `DeepSeekLLM.chat(messages, max_tokens, temperature)`: on success
returns the response content; any exception from the network call is
caught and converted into the string `"API调用失败: " + str(e)` — `chat`
never raises. -/
def DeepSeekLLM.chat (llm : DeepSeekLLM) (messages : List ChatMessage)
    (max_tokens : ℕ) (temperature : ℚ) : String :=
  match llm.net messages max_tokens temperature with
  | .ok a => a
  | .err e => "API调用失败: " ++ e

/-- `DeepSeekLLM.generate(prompt, ...)`: wraps the prompt as a single
user message and delegates to `chat` (whose own handler already catches
every exception, so the outer `except` branch is dead). -/
def DeepSeekLLM.generate (llm : DeepSeekLLM) (prompt : String)
    (max_tokens : ℕ) (temperature : ℚ) : String :=
  llm.chat [⟨"user", prompt⟩] max_tokens temperature

/-- `BaseLLM.create_rag_prompt(query, context)`: the fixed RAG prompt
template. -/
def DeepSeekLLM.create_rag_prompt (query context : String) : String :=
  "基于以下信息回答问题。如果信息不足，请说明无法基于给定信息回答。\n\n参考信息：\n"
    ++ context ++ "\n\n问题：" ++ query ++ "\n\n请基于上述信息给出准确、详细的回答："

/-- `BaseLLM.generate_rag_response(query, context, ...)`: builds the RAG
prompt and delegates to `generate`. -/
def DeepSeekLLM.generate_rag_response (llm : DeepSeekLLM)
    (query context : String) (max_tokens : ℕ) (temperature : ℚ) : String :=
  llm.generate (DeepSeekLLM.create_rag_prompt query context) max_tokens temperature

/-! ## core/rag_system.py — RAGConfig, RAGResult, CompleteRAGSystem -/

/-- `RAGConfig` dataclass. -/
structure RAGConfig where
  embedding_model_name : String
  vector_store_type : String
  llm_provider : String
  llm_model_name : String
  retrieval_k : ℕ
  similarity_threshold : ℚ
  max_tokens : ℕ
  temperature : ℚ
deriving Repr, DecidableEq

/-- The dataclass field defaults of `RAGConfig`. -/
def RAGConfig.default : RAGConfig :=
  ⟨"paraphrase-multilingual-MiniLM-L12-v2", "chroma", "deepseek",
   "deepseek-chat", 3, 1/2, 1000, 7/10⟩

/-- One entry of `RAGResult.sources`: the
`{'content': ..., 'similarity': ..., 'metadata': ...}` record built per
retrieved document. -/
structure SourceRecord where
  content : String
  similarity : ℚ
  metadata : List (String × String)
deriving Repr, DecidableEq

/-- `RAGResult` dataclass (times are wall-clock durations, fixed at 0 in
this model). -/
structure RAGResult where
  query : String
  answer : String
  sources : List SourceRecord
  retrieval_time : ℚ
  generation_time : ℚ
  total_time : ℚ
  used_context : Bool
deriving Repr, DecidableEq

/-- `CompleteRAGSystem` state after `_initialize_components`: the config,
the document loader, the vector store manager, and the LLM handle —
`none` when the provider is unsupported or the startup
`test_connection()` failed (retrieval-only mode). -/
structure CompleteRAGSystem where
  config : RAGConfig
  document_loader : DocumentLoader
  vector_store_manager : VectorStoreManager
  llm : Option DeepSeekLLM

/-- `CompleteRAGSystem._load_documents_and_create_store()`: loads text
documents, falls back to the synthetic test documents when none were
found, and creates the vector store from them. -/
def CompleteRAGSystem.load_documents_and_create_store (fs : FileSystem)
    (w : World) (sys : CompleteRAGSystem) (embeddings : String → List ℚ) :
    World × CompleteRAGSystem :=
  let documents := sys.document_loader.load_text_documents fs none
  let documents :=
    if documents.isEmpty then DocumentLoader.create_test_documents else documents
  let r := sys.vector_store_manager.create_vector_store w documents embeddings
    none sys.config.vector_store_type
  (r.1, { sys with vector_store_manager := r.2.1 })

/-- The sentinel answer of `query` when no generation runs. -/
def CompleteRAGSystem.noLLMAnswer : String := "LLM未配置，无法生成答案"

/-- `CompleteRAGSystem.query(question, k)`: retrieves with
`search_with_scores` (propagating its not-initialized error), then — only
when the LLM handle is live and at least one document was retrieved —
joins the retrieved contents into a labelled context string and generates
an answer, setting `used_context = True`; otherwise the sentinel answer is
kept and `used_context = False`.  The sources always collect every
retrieved `(content, similarity, metadata)` record. -/
def CompleteRAGSystem.query (ext : ChromaStore → String → ℕ → List (Document × ℚ))
    (sys : CompleteRAGSystem) (question : String) (k : Option ℕ) :
    Except String RAGResult :=
  let kv := k.getD sys.config.retrieval_k
  match sys.vector_store_manager.search_with_scores ext question kv with
  | .error e => .error e
  | .ok retrieved =>
    let context := String.intercalate "\n\n"
      (retrieved.enum.map (fun p =>
        "文档片段" ++ toString (p.1 + 1) ++ ":\n" ++ p.2.1.page_content))
    let gen : String × Bool :=
      match sys.llm with
      | some llm =>
        if retrieved.isEmpty then (CompleteRAGSystem.noLLMAnswer, false)
        else (llm.generate_rag_response question context
                sys.config.max_tokens sys.config.temperature, true)
      | none => (CompleteRAGSystem.noLLMAnswer, false)
    .ok { query := question
          answer := gen.1
          sources := retrieved.map (fun p => ⟨p.1.page_content, p.2, p.1.metadata⟩)
          retrieval_time := 0
          generation_time := 0
          total_time := 0
          used_context := gen.2 }

/-- `CompleteRAGSystem.batch_query(questions)`: the loop
`for question in questions: results.append(self.query(question))` — each
question is fully resolved by its own `query` call (which propagates any
exception) before the next begins, and results are appended in input
order. -/
def CompleteRAGSystem.batch_query
    (ext : ChromaStore → String → ℕ → List (Document × ℚ))
    (sys : CompleteRAGSystem) : List String → Except String (List RAGResult)
  | [] => .ok []
  | q :: rest =>
    match sys.query ext q none with
    | .error e => .error e
    | .ok r =>
      match CompleteRAGSystem.batch_query ext sys rest with
      | .error e => .error e
      | .ok rs => .ok (r :: rs)

/-! ## Concrete sample values (used by witnesses and counterexamples) -/

/-- A sample retrieved document. -/
def sampleDoc : Document :=
  ⟨"RAG combines retrieval and generation.", [("source", "t.txt")]⟩

/-- A sample Chroma store handle. -/
def sampleStore : ChromaStore := ⟨"./d", []⟩

/-- A sample external search behaviour returning one scored document. -/
def sampleExt : ChromaStore → String → ℕ → List (Document × ℚ) :=
  fun _ _ _ => [(sampleDoc, 9 / 10)]

/-- An LLM handle whose network call always fails (provider unreachable
at query time). -/
def failingLLM : DeepSeekLLM :=
  ⟨"deepseek-chat", fun _ _ _ => .err "Connection refused"⟩

/-- A RAG system in retrieval-only mode (LLM disabled at startup). -/
def sampleSysNoLLM : CompleteRAGSystem :=
  ⟨RAGConfig.default, DocumentLoader.init, ⟨"./d", some sampleStore⟩, none⟩

/-- A RAG system whose live LLM handle has an unreachable provider. -/
def sampleSysFailingLLM : CompleteRAGSystem :=
  ⟨RAGConfig.default, DocumentLoader.init, ⟨"./d", some sampleStore⟩,
   some failingLLM⟩

/-! ## Helper lemmas -/

theorem mapM_option_eq_map {α β : Type} (f : α → Option β) (g : α → β) :
    ∀ l : List α, (∀ x ∈ l, f x = some (g x)) → List.mapM f l = some (l.map g)
  | [], _ => rfl
  | a :: l, h => by
    have ha := h a (by simp)
    have hl := mapM_option_eq_map f g l (fun x hx => h x (by simp [hx]))
    rw [List.mapM_cons, ha, hl]
    rfl

theorem sumSq_nonneg (v : List ℚ) : 0 ≤ sumSq v := by
  apply List.sum_nonneg
  intro x hx
  obtain ⟨y, -, rfl⟩ := List.mem_map.mp hx
  exact mul_self_nonneg y

theorem sumSq_pos (v : List ℚ) (h : ∃ x ∈ v, x ≠ 0) : 0 < sumSq v := by
  obtain ⟨x, hx, hx0⟩ := h
  have h1 : x * x ≤ sumSq v := by
    apply List.single_le_sum
    · intro y hy
      obtain ⟨z, -, rfl⟩ := List.mem_map.mp hy
      exact mul_self_nonneg z
    · exact List.mem_map.mpr ⟨x, hx, rfl⟩
  have h2 : 0 < x * x := mul_self_pos.mpr hx0
  linarith

theorem cosine_similarity_eq_cosVal (a b : List ℚ) (h : a.length = b.length) :
    cosine_similarity a b = some (cosVal a b) := by
  simp [cosine_similarity, npDot, cosVal, h]

theorem cosVal_comm (a b : List ℚ) : cosVal a b = cosVal b a := by
  unfold cosVal
  rw [List.zipWith_comm_of_comm _ mul_comm a b, mul_comm (npNorm a)]

theorem getD_map_range {β : Type} (n i : ℕ) (f : ℕ → β) (d : β) (hi : i < n) :
    ((List.range n).map f).getD i d = f i := by
  rw [List.getD_eq_getElem _ _ (by simpa using hi), List.getElem_map,
    List.getElem_range]

theorem getD_mem_of_lt {β : Type} (l : List β) (i : ℕ) (d : β) (hi : i < l.length) :
    l.getD i d ∈ l := by
  rw [List.getD_eq_getElem _ _ hi]
  exact List.getElem_mem hi

theorem snd_mem_of_mem_enum {β : Type} {l : List β} {p : ℕ × β}
    (hp : p ∈ l.enum) : p.2 ∈ l := by
  rw [List.enum_eq_zip_range] at hp
  exact (List.of_mem_zip (by exact hp)).2

/-! ## Claims about utils/similarity.py -/

/-- C5: `cosine_similarity(a, b)` computes `dot(a,b) / (norm(a) * norm(b))`
(for every pair of equal-length vectors, the returned value is exactly
that quotient), and for every non-zero vector `v`,
`cosine_similarity(v, v)` equals `1.0` exactly — in particular within the
`1e-6` tolerance. -/
theorem cosine_similarity_self (v : List ℚ) (h : ∃ x ∈ v, x ≠ 0) :
    (∀ a b : List ℚ, a.length = b.length →
      cosine_similarity a b = some (cosVal a b)) ∧
    cosine_similarity v v = some 1 ∧
    ∃ c : ℝ, cosine_similarity v v = some c ∧ |c - 1| < 1 / 1000000 := by
  have hpos : (0 : ℚ) < sumSq v := sumSq_pos v h
  have hposR : (0 : ℝ) < ((sumSq v : ℚ) : ℝ) := by exact_mod_cast hpos
  have hs : npNorm v * npNorm v = ((sumSq v : ℚ) : ℝ) :=
    Real.mul_self_sqrt (le_of_lt hposR)
  have h1 : cosine_similarity v v = some 1 := by
    rw [cosine_similarity_eq_cosVal v v rfl]
    unfold cosVal
    rw [hs, List.zipWith_same]
    congr 1
    rw [show (List.map (fun a => a * a) v).sum = sumSq v from rfl]
    field_simp
  exact ⟨fun a b hab => cosine_similarity_eq_cosVal a b hab, h1, 1, h1, by norm_num⟩

/-- C5 witness: the vector `[2]` is non-zero and its self-similarity is
exactly `1`. -/
theorem cosine_similarity_self_witness :
    cosine_similarity [(2 : ℚ)] [(2 : ℚ)] = some 1 :=
  (cosine_similarity_self [2] (by decide)).2.1

/-- C6 counterexample: `[0]` and `[3, 4]` have different lengths, yet
`euclidean_distance` and `manhattan_distance` return values (`5.0` and
`7.0`) instead of failing, because numpy broadcasts a length-1 operand. -/
theorem dimension_mismatch_counterexample :
    ([(0 : ℚ)] : List ℚ).length ≠ ([3, 4] : List ℚ).length ∧
    manhattan_distance [0] [3, 4] = some 7 ∧
    euclidean_distance [0] [3, 4] = some 5 := by
  refine ⟨by decide, ?_, ?_⟩
  · simp [manhattan_distance, npSub]
    norm_num
  · simp [euclidean_distance, npSub, npNorm, sumSq]
    norm_num
    rw [show (25 : ℝ) = (5 : ℝ) ^ 2 by norm_num]
    exact Real.sqrt_sq (by norm_num)

/-- C6 amended: for every pair of vectors of different lengths,
`dot_product` fails rather than returning a value, and
`euclidean_distance` and `manhattan_distance` fail whenever neither
vector has length 1 (when one operand has length 1, numpy broadcasting
applies and a value is returned instead); the failure is numpy's shape
`ValueError`, there is no dedicated `DimensionMismatchError` type. -/
theorem dimension_mismatch_amended (a b : List ℚ) (h : a.length ≠ b.length) :
    dot_product a b = none ∧
    (a.length ≠ 1 → b.length ≠ 1 →
      euclidean_distance a b = none ∧ manhattan_distance a b = none) := by
  refine ⟨by simp [dot_product, npDot, h], fun h1 h2 => ?_⟩
  constructor
  · simp [euclidean_distance, npSub, h, h1, h2]
  · simp [manhattan_distance, npSub, h, h1, h2]

/-- C6 amended witness: `[1, 2]` against `[1, 2, 3]` (no length-1
operand): all three operations fail. -/
theorem dimension_mismatch_amended_witness :
    dot_product [1, 2] [1, 2, 3] = none ∧
    (([1, 2] : List ℚ).length ≠ 1 → ([1, 2, 3] : List ℚ).length ≠ 1 →
      euclidean_distance [1, 2] [1, 2, 3] = none ∧
      manhattan_distance [1, 2] [1, 2, 3] = none) :=
  dimension_mismatch_amended [1, 2] [1, 2, 3] (by decide)

/-- C7: for every list of embedding vectors (vectors of one provider all
share a length, per the data-model invariant), `similarity_matrix`
returns a matrix that is symmetric — entry `(i, j)` equals entry
`(j, i)` for all `i, j` — and whose diagonal entries are exactly `1.0`,
assigned directly rather than computed from the vectors. -/
theorem similarity_matrix_symm_diag (es : List (List ℚ)) (d : ℕ)
    (h : ∀ v ∈ es, v.length = d) :
    ∃ M, similarity_matrix es = some M ∧ M.length = es.length ∧
      (∀ i j, i < es.length → j < es.length →
        (M.getD i []).getD j 0 = (M.getD j []).getD i 0) ∧
      (∀ i, i < es.length → (M.getD i []).getD i 0 = 1) := by
  have hlen : ∀ i, i < es.length → (es.getD i []).length = d := fun i hi =>
    h _ (getD_mem_of_lt es i [] hi)
  have hentry : ∀ i j, i < es.length → j < es.length →
      (if i = j then some (1 : ℝ)
        else cosine_similarity (es.getD i []) (es.getD j [])) =
      some (if i = j then 1 else cosVal (es.getD i []) (es.getD j [])) := by
    intro i j hi hj
    by_cases hij : i = j
    · simp [hij]
    · rw [if_neg hij, if_neg hij,
        cosine_similarity_eq_cosVal _ _ ((hlen i hi).trans (hlen j hj).symm)]
  have hrow : ∀ i ∈ List.range es.length,
      (List.range es.length).mapM (fun j =>
        if i = j then some (1 : ℝ)
        else cosine_similarity (es.getD i []) (es.getD j [])) =
      some ((List.range es.length).map (fun j =>
        if i = j then 1 else cosVal (es.getD i []) (es.getD j []))) := by
    intro i hi
    exact mapM_option_eq_map _ _ _ (fun j hj =>
      hentry i j (List.mem_range.mp hi) (List.mem_range.mp hj))
  have hM : similarity_matrix es = some ((List.range es.length).map (fun i =>
      (List.range es.length).map (fun j =>
        if i = j then 1 else cosVal (es.getD i []) (es.getD j [])))) :=
    mapM_option_eq_map _ _ _ hrow
  refine ⟨_, hM, by simp, ?_, ?_⟩
  · intro i j hi hj
    rw [getD_map_range _ _ _ _ hi, getD_map_range _ _ _ _ hj,
      getD_map_range _ _ _ _ hj, getD_map_range _ _ _ _ hi]
    by_cases hij : i = j
    · simp [hij]
    · rw [if_neg hij, if_neg (fun hji => hij hji.symm), cosVal_comm]
  · intro i hi
    rw [getD_map_range _ _ _ _ hi, getD_map_range _ _ _ _ hi, if_pos rfl]

/-- C7 witness: two one-dimensional embeddings produce a matrix. -/
theorem similarity_matrix_symm_diag_witness :
    (similarity_matrix [[(1 : ℚ)], [2]]).isSome = true := by
  obtain ⟨M, hM, -, -, -⟩ :=
    similarity_matrix_symm_diag [[(1 : ℚ)], [2]] 1 (by decide)
  rw [hM]
  rfl

/-- C8 counterexample: the claim quantifies over every `top_k`, but for
the Python slice `similarities[:top_k]` a negative `top_k` is not
clipped to `min(top_k, len)`: with 2 candidates and `top_k = -1` the
code returns 1 pair, while `min(-1, 2) = -1`. -/
theorem find_most_similar_counterexample :
    (find_most_similar [(1 : ℚ)] [[1], [1]] (-1)).map List.length = some 1 ∧
    ¬((1 : ℤ) = min (-1 : ℤ) 2) := by
  constructor
  · have hmapM : ([[(1 : ℚ)], [1]] : List (List ℚ)).enum.mapM
        (fun p => (cosine_similarity [(1 : ℚ)] p.2).map (fun s => (p.1, s))) =
        some (([[(1 : ℚ)], [1]] : List (List ℚ)).enum.map
          (fun p => (p.1, cosVal [(1 : ℚ)] p.2))) := by
      apply mapM_option_eq_map
      intro p hp
      have h2 : p.2 ∈ ([[(1 : ℚ)], [1]] : List (List ℚ)) := snd_mem_of_mem_enum hp
      have hl : p.2.length = 1 := by
        simp only [List.mem_cons, List.not_mem_nil, or_false] at h2
        rcases h2 with h2 | h2 <;> simp [h2]
      rw [cosine_similarity_eq_cosVal _ _ (by simp [hl])]
      rfl
    rw [find_most_similar, hmapM]
    simp [pyTake, List.length_take, List.length_mergeSort]
  · decide

/-- C8 amended: for every query vector, list of candidate vectors of the
query's dimension, and `top_k ≥ 0`, `find_most_similar` returns pairs
sorted in descending order of score and the number of returned pairs is
`min(top_k, number of candidates)`; a negative `top_k` instead follows
Python slice semantics (`max(len + top_k, 0)` pairs). -/
theorem find_most_similar_sorted (q : List ℚ) (des : List (List ℚ)) (k : ℤ)
    (hk : 0 ≤ k) (hlen : ∀ v ∈ des, v.length = q.length) :
    ∃ r, find_most_similar q des k = some r ∧
      List.Pairwise (fun x y : ℕ × ℝ => y.2 ≤ x.2) r ∧
      r.length = min k.toNat des.length := by
  have hmapM : des.enum.mapM
      (fun p => (cosine_similarity q p.2).map (fun s => (p.1, s))) =
      some (des.enum.map (fun p => (p.1, cosVal q p.2))) := by
    apply mapM_option_eq_map
    intro p hp
    rw [cosine_similarity_eq_cosVal _ _ (hlen _ (snd_mem_of_mem_enum hp)).symm]
    rfl
  refine ⟨_, by rw [find_most_similar, hmapM]; rfl, ?_, ?_⟩
  · have hsorted := @List.sorted_mergeSort (ℕ × ℝ)
      (fun x y => decide (y.2 ≤ x.2))
      (fun a b c hab hbc => by
        rw [decide_eq_true_eq] at *
        exact le_trans hbc hab)
      (fun a b => by
        rcases le_total a.2 b.2 with hab | hab <;> simp [hab])
      (des.enum.map (fun p => (p.1, cosVal q p.2)))
    simp only [pyTake]
    refine List.Pairwise.imp (fun hab => ?_)
      (List.Pairwise.sublist (List.take_sublist _ _) hsorted)
    rwa [decide_eq_true_eq] at hab
  · simp only [pyTake, if_pos hk]
    rw [List.length_take, List.length_mergeSort]
    simp [List.enum_length]

/-- C8 amended witness: a query with two candidates and `top_k = 5`
returns a result. -/
theorem find_most_similar_sorted_witness :
    (find_most_similar [(1 : ℚ)] [[1], [2]] 5).isSome = true := by
  obtain ⟨r, hr, -, -⟩ :=
    find_most_similar_sorted [(1 : ℚ)] [[1], [2]] 5 (by decide) (by decide)
  rw [hr]
  rfl

/-! ## Claims about core/vector_store.py and core/rag_system.py -/

/-- C1 counterexample: with a live LLM handle whose network call fails
(provider unreachable at query time) and a non-empty retrieval, `query`
returns the fail-soft error string as the answer and sets
`used_context = true`, not `false` as the claim states. -/
theorem query_generation_failure_counterexample :
    (sampleSysFailingLLM.query sampleExt "What is RAG?" none).map
        RAGResult.used_context = .ok true ∧
    (sampleSysFailingLLM.query sampleExt "What is RAG?" none).map
        RAGResult.answer = .ok "API调用失败: Connection refused" ∧
    (sampleSysFailingLLM.query sampleExt "What is RAG?" none).map
        (List.length ∘ RAGResult.sources) = .ok 1 :=
  ⟨rfl, rfl, rfl⟩

/-- C1 amended: for every query whose retrieval step succeeds, `query()`
returns a `RAGResult` whose `sources` sequence contains exactly every
retrieved `(content, similarity, metadata)` record in order, and
`used_context` is true iff the LLM handle is live and retrieval returned
at least one result — so `used_context = false` whenever the LLM was
disabled (as happens when the provider is unreachable at startup and
`test_connection` fails), while a network failure during the query's own
generation call is converted by `chat` into an error-string answer with
`used_context = true`. -/
theorem query_preserves_retrieval
    (ext : ChromaStore → String → ℕ → List (Document × ℚ))
    (sys : CompleteRAGSystem) (question : String) (k : Option ℕ)
    (retrieved : List (Document × ℚ))
    (h : sys.vector_store_manager.search_with_scores ext question
      (k.getD sys.config.retrieval_k) = .ok retrieved) :
    (sys.query ext question k).map RAGResult.sources =
      .ok (retrieved.map (fun p => ⟨p.1.page_content, p.2, p.1.metadata⟩)) ∧
    (sys.query ext question k).map RAGResult.used_context =
      .ok (sys.llm.isSome && !retrieved.isEmpty) := by
  simp only [CompleteRAGSystem.query, h]
  cases hllm : sys.llm with
  | none => simp [Except.map]
  | some llm => by_cases hre : retrieved.isEmpty <;> simp [hre, Except.map]

/-- C1 amended witness: a retrieval-only system (LLM disabled) returns
the retrieved source and `used_context = false`. -/
theorem query_preserves_retrieval_witness :
    (sampleSysNoLLM.query sampleExt "What is RAG?" none).map
        RAGResult.used_context = .ok false ∧
    (sampleSysNoLLM.query sampleExt "What is RAG?" none).map
        RAGResult.sources =
      .ok [⟨sampleDoc.page_content, 9 / 10, sampleDoc.metadata⟩] := by
  have h := query_preserves_retrieval sampleExt sampleSysNoLLM "What is RAG?"
    none [(sampleDoc, 9 / 10)] rfl
  constructor
  · rw [h.2]
    rfl
  · rw [h.1]
    rfl

/-- C2: `similarity_search` and `search_with_scores` raise the
not-initialized `ValueError` whenever the manager holds no store — as on
a fresh handle before any create/load — and a handle on which
`delete_store` has been called is back in that state, so every
subsequent search fails the same way rather than returning results. -/
theorem search_requires_initialization
    (extd : ChromaStore → String → ℕ → List Document)
    (exts : ChromaStore → String → ℕ → List (Document × ℚ))
    (m m' : VectorStoreManager) (q : String) (k : ℕ) (w : World)
    (h : m.vector_store = none) :
    m.similarity_search extd q k =
      .error "向量存储未初始化，请先创建或加载向量存储" ∧
    m.search_with_scores exts q k = .error "向量存储未初始化" ∧
    (m'.delete_store w).2.vector_store = none ∧
    (m'.delete_store w).2.similarity_search extd q k =
      .error "向量存储未初始化，请先创建或加载向量存储" ∧
    (m'.delete_store w).2.search_with_scores exts q k =
      .error "向量存储未初始化" := by
  refine ⟨?_, ?_, rfl, rfl, rfl⟩
  · simp [VectorStoreManager.similarity_search, h]
  · simp [VectorStoreManager.search_with_scores, h]

/-- C2 witness: a fresh manager errors on both searches, and so does a
loaded manager after `delete_store`. -/
theorem search_requires_initialization_witness :
    (VectorStoreManager.init "./d").similarity_search (fun _ _ _ => []) "q" 2 =
      .error "向量存储未初始化，请先创建或加载向量存储" ∧
    (VectorStoreManager.init "./d").search_with_scores (fun _ _ _ => []) "q" 2 =
      .error "向量存储未初始化" ∧
    ((VectorStoreManager.mk "./d" (some sampleStore)).delete_store
        ⟨["./d"]⟩).2.vector_store = none ∧
    ((VectorStoreManager.mk "./d" (some sampleStore)).delete_store
        ⟨["./d"]⟩).2.similarity_search (fun _ _ _ => []) "q" 2 =
      .error "向量存储未初始化，请先创建或加载向量存储" ∧
    ((VectorStoreManager.mk "./d" (some sampleStore)).delete_store
        ⟨["./d"]⟩).2.search_with_scores (fun _ _ _ => []) "q" 2 =
      .error "向量存储未初始化" :=
  search_requires_initialization (fun _ _ _ => []) (fun _ _ _ => [])
    (VectorStoreManager.init "./d") (VectorStoreManager.mk "./d" (some sampleStore))
    "q" 2 ⟨["./d"]⟩ rfl

/-- C3: when the document directory is missing, the loader returns an
empty sequence (not an error), the orchestrator substitutes the fixed 5
synthetic example documents, and vector-store creation succeeds with
exactly those 5 items ingested — in particular the ingested corpus is
non-empty. -/
theorem load_documents_fallback (fs : FileSystem) (w : World)
    (sys : CompleteRAGSystem) (embeddings : String → List ℚ)
    (h : fs sys.document_loader.data_directory = none ∨
      fs sys.document_loader.data_directory = some []) :
    sys.document_loader.load_text_documents fs none = [] ∧
    ∃ s, (sys.load_documents_and_create_store fs w
        embeddings).2.vector_store_manager.vector_store = some s ∧
      s.entries = DocumentLoader.create_test_documents.map
        (fun d => (d, embeddings d.page_content)) ∧
      s.entries.length = 5 ∧ s.entries ≠ [] := by
  have hload : sys.document_loader.load_text_documents fs none = [] := by
    rcases h with h | h <;> simp [DocumentLoader.load_text_documents, h]
  refine ⟨hload, ?_⟩
  simp only [CompleteRAGSystem.load_documents_and_create_store, hload,
    VectorStoreManager.create_vector_store, Chroma.from_documents,
    List.isEmpty_nil, if_true, ite_self]
  exact ⟨_, rfl, rfl, by simp [DocumentLoader.create_test_documents], by
    simp [DocumentLoader.create_test_documents]⟩

/-- C3 witness: a filesystem with no directories triggers the fallback
and the resulting store holds the 5 synthetic documents. -/
theorem load_documents_fallback_witness :
    (sampleSysNoLLM.load_documents_and_create_store (fun _ => none) ⟨[]⟩
      (fun _ => [1])).2.vector_store_manager.vector_store.isSome = true := by
  obtain ⟨-, s, hs, -, -, -⟩ := load_documents_fallback (fun _ => none) ⟨[]⟩
    sampleSysNoLLM (fun _ => [1]) (Or.inl rfl)
  rw [hs]
  rfl

/-- Every `query` call on a system whose store handle is live returns a
result (retrieval cannot raise the not-initialized error). -/
theorem query_isOk (ext : ChromaStore → String → ℕ → List (Document × ℚ))
    (sys : CompleteRAGSystem)
    (hst : sys.vector_store_manager.vector_store.isSome = true)
    (q : String) (k : Option ℕ) : ∃ r, sys.query ext q k = .ok r := by
  rcases hvs : sys.vector_store_manager.vector_store with _ | s
  · rw [hvs] at hst
    cases hst
  · simp only [CompleteRAGSystem.query, VectorStoreManager.search_with_scores, hvs]
    exact ⟨_, rfl⟩

/-- C4: `batch_query(questions)` is the sequential monadic map of
`query` over the questions: one `query()` call per question, executed in
input order with each question fully resolved (its `query` call
completely evaluated, errors propagated) before the next begins, and
when the store is live it returns exactly one result per question, in
the same order as the input questions. -/
theorem batch_query_sequential_ordered
    (ext : ChromaStore → String → ℕ → List (Document × ℚ))
    (sys : CompleteRAGSystem)
    (hst : sys.vector_store_manager.vector_store.isSome = true)
    (qs : List String) :
    sys.batch_query ext qs = List.mapM (fun q => sys.query ext q none) qs ∧
    ∃ rs, sys.batch_query ext qs = .ok rs ∧ rs.length = qs.length ∧
      ∀ i (hi : i < qs.length) (hi' : i < rs.length),
        sys.query ext (qs.get ⟨i, hi⟩) none = .ok (rs.get ⟨i, hi'⟩) := by
  induction qs with
  | nil =>
    exact ⟨rfl, [], rfl, rfl, fun i hi _ => absurd hi (Nat.not_lt_zero i)⟩
  | cons q rest ih =>
    obtain ⟨r, hr⟩ := query_isOk ext sys hst q none
    obtain ⟨hmap, rs, hrs, hlen, hidx⟩ := ih
    have hrest : List.mapM (fun q => sys.query ext q none) rest = .ok rs :=
      hmap.symm.trans hrs
    constructor
    · rw [List.mapM_cons, hr, hrest]
      simp only [CompleteRAGSystem.batch_query, hr, hrs]
      rfl
    · refine ⟨r :: rs, ?_, by simp [hlen], ?_⟩
      · simp only [CompleteRAGSystem.batch_query, hr, hrs]
      · intro i hi hi'
        cases i with
        | zero => exact hr
        | succ n =>
          exact hidx n (Nat.succ_lt_succ_iff.mp hi) (Nat.succ_lt_succ_iff.mp hi')

/-- C4 witness: a two-question batch on a live system returns two
results. -/
theorem batch_query_sequential_ordered_witness :
    (sampleSysNoLLM.batch_query sampleExt ["a", "b"]).map List.length =
      .ok 2 := by
  obtain ⟨-, rs, hok, hlen, -⟩ :=
    batch_query_sequential_ordered sampleExt sampleSysNoLLM rfl ["a", "b"]
  rw [hok]
  simp [Except.map, hlen]

/-- C9: `clear_store()` on an initialized handle empties all stored
vectors from the collection while leaving the on-disk world (and hence
the `persist_directory`) untouched, and keeps the handle valid — the
store stays `some`, only its entries become empty. -/
theorem clear_store_frame (w : World) (m : VectorStoreManager)
    (s : ChromaStore) (h : m.vector_store = some s) :
    (m.clear_store w).1 = w ∧
    (m.clear_store w).2.persist_directory = m.persist_directory ∧
    (m.clear_store w).2.vector_store = some { s with entries := [] } := by
  refine ⟨rfl, rfl, ?_⟩
  simp [VectorStoreManager.clear_store, h, ChromaStore.delete_all]

/-- C9 witness: clearing a one-entry store keeps the world and directory
and empties the entries. -/
theorem clear_store_frame_witness :
    ((VectorStoreManager.mk "./d" (some (ChromaStore.mk "./d"
        [(sampleDoc, [1])]))).clear_store ⟨["./d"]⟩).1 = World.mk ["./d"] ∧
    ((VectorStoreManager.mk "./d" (some (ChromaStore.mk "./d"
        [(sampleDoc, [1])]))).clear_store ⟨["./d"]⟩).2.persist_directory =
      (VectorStoreManager.mk "./d" (some (ChromaStore.mk "./d"
        [(sampleDoc, [1])]))).persist_directory ∧
    ((VectorStoreManager.mk "./d" (some (ChromaStore.mk "./d"
        [(sampleDoc, [1])]))).clear_store ⟨["./d"]⟩).2.vector_store =
      some { ChromaStore.mk "./d" [(sampleDoc, [1])] with entries := [] } :=
  clear_store_frame ⟨["./d"]⟩
    (VectorStoreManager.mk "./d" (some (ChromaStore.mk "./d" [(sampleDoc, [1])])))
    (ChromaStore.mk "./d" [(sampleDoc, [1])]) rfl

/-- C10: for every `vector_store_type` string other than `"chroma"`
(case-insensitively), `create_vector_store` does not raise: it falls
back to creating a chroma store from the given documents and embeddings
under `persist_directory`, identical in every component (world, manager,
store) to the `vector_store_type = "chroma"` behaviour. -/
theorem create_vector_store_fallback (w : World) (m : VectorStoreManager)
    (documents : List Document) (embeddings : String → List ℚ)
    (pd : Option String) (vst : String) (h : pyLower vst ≠ "chroma") :
    m.create_vector_store w documents embeddings pd vst =
      m.create_vector_store w documents embeddings pd "chroma" := by
  have hc : pyLower "chroma" = "chroma" := rfl
  simp [VectorStoreManager.create_vector_store, h, hc]

/-- C10 witness: `"faiss"` is not `"chroma"` and behaves identically to
`"chroma"`. -/
theorem create_vector_store_fallback_witness :
    (VectorStoreManager.init "./d").create_vector_store ⟨[]⟩ [sampleDoc]
        (fun _ => [1]) none "faiss" =
      (VectorStoreManager.init "./d").create_vector_store ⟨[]⟩ [sampleDoc]
        (fun _ => [1]) none "chroma" :=
  create_vector_store_fallback ⟨[]⟩ (VectorStoreManager.init "./d") [sampleDoc]
    (fun _ => [1]) none "faiss" (by decide)

end Rag
